import Mathlib

/-!
Shallow embedding of the Uchiwa HTTP handler layer (src/uchiwa/server.go),
together with spec-modelled versions of the collaborators the handlers call:
the authorization filter engine, the cross-datacenter resolver find helpers and
the remote Sensu API operations, none of which are among the provided sources.

Modelling conventions:
* Go handlers become pure functions from a handler environment (the filter
  engine, the remote operations), the shared Uchiwa state and a request to a
  `HandlerOut` value recording the HTTP response written, the trace of
  operations invoked on the Uchiwa core, and the cache data as it stands when
  the handler returns (so that frame properties about the cache are statable).
* Go slices are `GoSlice`, an `Option (List α)`: `none` is a nil slice, which
  JSON-encodes to `null` while a non-nil empty slice encodes to `[]`.
* JSON encoding is modelled by an injective printing function; gzip
  compression is modelled by a boolean flag on the response, since the
  compressed body is in bijection with the plain one.
* `http.Error(w, msg, code)` writes `msg` followed by a newline.
-/

deriving instance DecidableEq for Except

/-- A Sensu data object as the handlers see it: a decoded JSON value.
`isMap` records whether the value is a JSON object (the Go type assertion to
`map[string]interface\x7b\x7d` succeeds); `dc` is the object's "dc" field when
present with a string value; `name` is the kind-specific unique key (the
"name" field for clients and checks, the path for stashes); `extra` stands for
the remaining opaque fields. -/
structure SensuObject where
  isMap : Bool
  dc : Option String
  name : String
  extra : String
deriving DecidableEq

/-- A named grouping of monitored clients (structs.Subscription). -/
structure Subscription where
  name : String
deriving DecidableEq

/-- Modelled from the spec: the Identity data model of section 3 (the
authentication package that produces it is not among the provided sources).
An authenticated caller carries the username claim of its JWT, when present,
and the set of datacenters the caller's role may access. -/
structure Identity where
  username : Option String
  datacenters : List String
deriving DecidableEq

/-- The JWT attached to a request, as returned by
authentication.GetJWTFromContext; `none` models a nil token. -/
abbrev Token := Option Identity

/-- Modelled from the spec: the payload of a create-silence / clear-silence
command (the `silence` struct of the uchiwa package is not among the provided
sources); the fields are exactly the ones silencedHandler reads and writes. -/
structure Silence where
  dc : String
  creator : String
  expire : Int
  expireOnResolve : Bool
  reason : String
deriving DecidableEq

/-- Modelled from the spec: the payload of a create-stash command (the `stash`
struct of the uchiwa package is not among the provided sources);
`contentUsername` is the "username" key of the stash's content map. -/
structure Stash where
  dc : String
  path : String
  contentUsername : Option String
deriving DecidableEq

/-- A Go slice value: `none` models a nil slice (which JSON-encodes to null),
`some l` a non-nil slice holding the elements of `l`. -/
abbrev GoSlice (α : Type) := Option (List α)

/-- Go `len` of a slice; a nil slice has length zero. -/
def slen {α : Type} (s : GoSlice α) : Nat :=
  match s with
  | none => 0
  | some l => l.length

/-- The cached snapshot served by the dashboard (the relevant collections of
u.Data, as read by the handlers in server.go). -/
structure UchiwaData where
  clients : List SensuObject
  checks : List SensuObject
  aggregates : List SensuObject
  events : List SensuObject
  silenced : List SensuObject
  stashes : List SensuObject
  subscriptions : List Subscription
deriving DecidableEq

/-- The policy flags read by silencedHandler
(u.Config.Uchiwa.UsersOptions). -/
structure UsersOptions where
  disableNoExpiration : Bool
  requireSilencingReason : Bool
deriving DecidableEq

/-- The subset of u.Config the embedded handlers consult. -/
structure UchiwaConfig where
  usersOptions : UsersOptions
deriving DecidableEq

/-- The Uchiwa structure: cached snapshot data plus configuration. -/
structure UchiwaState where
  data : UchiwaData
  config : UchiwaConfig
deriving DecidableEq

/-- An incoming HTTP request, after the out-of-scope layers have parsed it:
method and URL path, the dc query-string parameter ("" when absent), whether
Accept-Encoding admits gzip, the authenticated token, and the decoded JSON
body for each of the POST payload shapes (`none` models a decode failure). -/
structure Request where
  method : String
  path : String
  dcQuery : String
  acceptGzip : Bool
  token : Token
  bodyObj : Option SensuObject
  bodySilence : Option Silence
  bodyStash : Option Stash
deriving DecidableEq

/-- The response a handler writes: status code, body (uncompressed content)
and whether it was gzip-compressed. -/
structure HttpResponse where
  status : Nat
  body : String
  gzipped : Bool
deriving DecidableEq

/-- One invocation of an operation of the Uchiwa core (resolver find helpers,
cache getters, or remote datacenter commands), with its arguments. -/
inductive UCall where
  | findCheck (name : String)
  | findClient (name : String)
  | findAggregate (name : String)
  | findStash (path : String)
  | getCheck (dc name : String)
  | getClient (dc name : String)
  | getClientHistory (dc name : String)
  | getAggregate (name dc : String)
  | getAggregateChecks (name dc : String)
  | getAggregateClients (name dc : String)
  | getAggregateResults (name severity dc : String)
  | deleteAggregate (name dc : String)
  | deleteClient (dc name : String)
  | resolveEvent (check client dc : String)
  | deleteCheckResult (check client dc : String)
  | deleteStash (dc path : String)
  | updateClient (payload : SensuObject)
  | postSilence (entry : Silence)
  | clearSilenced (entry : Silence)
  | postStash (entry : Stash)
deriving DecidableEq

/-- What a handler run produces: the response written, the trace of core
operations invoked, and the cache data as the handler leaves it. -/
structure HandlerOut where
  resp : HttpResponse
  calls : List UCall
  finalData : UchiwaData
deriving DecidableEq

/-- The authorization filter engine (the global `Filters filters.Filters` of
server.go; the filters package is not among the provided sources, so its
methods are kept abstract here). `getRequest dc token` returns true when the
token is NOT authorized for the datacenter `dc`; `client payload token`
returns true when the token may act on the posted client payload. -/
structure Filters where
  aggregates : List SensuObject → Token → GoSlice SensuObject
  checks : List SensuObject → Token → GoSlice SensuObject
  clients : List SensuObject → Token → GoSlice SensuObject
  events : List SensuObject → Token → GoSlice SensuObject
  silenced : List SensuObject → Token → GoSlice SensuObject
  stashes : List SensuObject → Token → GoSlice SensuObject
  subscriptions : List Subscription → Token → GoSlice Subscription
  getRequest : String → Token → Bool
  client : SensuObject → Token → Bool

/-- The operations the handlers invoke on the Uchiwa core besides the find
helpers (cache getters and remote datacenter commands; their implementations
are not among the provided sources, so they are kept abstract). -/
structure Remote where
  getCheck : String → String → Except String SensuObject
  getClient : String → String → Except String SensuObject
  getClientHistory : String → String → Except String (List SensuObject)
  getAggregate : String → String → Except String SensuObject
  getAggregateChecks : String → String → Except String (List SensuObject)
  getAggregateClients : String → String → Except String (List SensuObject)
  getAggregateResults : String → String → String → Except String (List SensuObject)
  deleteAggregate : String → String → Except String Unit
  deleteClient : String → String → Except String Unit
  resolveEvent : String → String → String → Except String Unit
  deleteCheckResult : String → String → String → Except String Unit
  deleteStash : String → String → Except String Unit
  updateClient : SensuObject → Except String Unit
  postSilence : Silence → Except String Unit
  clearSilenced : Silence → Except String Unit
  postStash : Stash → Except String Unit

/-- Splitting a character list at every '/' (helper for `splitSlash`). -/
def splitSlashAux : List Char → List (List Char)
  | [] => [[]]
  | c :: rest =>
    if c = '/' then [] :: splitSlashAux rest
    else
      match splitSlashAux rest with
      | [] => [[c]]
      | w :: ws => (c :: w) :: ws

/-- Go's strings.Split(s, "/"), as used on r.URL.Path by every handler. -/
def splitSlash (s : String) : List String :=
  (splitSlashAux s.toList).map (fun l => String.mk l)

/-- Concatenation of a list of strings with a separator (Go strings.Join). -/
def joinSep (sep : String) : List String → String
  | [] => ""
  | [x] => x
  | x :: xs => x ++ sep ++ joinSep sep xs

/-- Go slice indexing with the out-of-range default ""; every use in the
embedded handlers is guarded by a length check, mirroring the Go code. -/
def goIndex (l : List String) (n : Nat) : String := l.getD n ""

/-- The response written by http.Error(w, msg, code): the message followed by
a newline, with the given status code. -/
def httpError (msg : String) (code : Nat) : HttpResponse :=
  { status := code, body := msg ++ "\n", gzipped := false }

/-- What fmt.Sprint(err) prints for a nil error. -/
def nilErrText : String := "<nil>"

/-- Marker for the places where the Go code would panic (indexing an empty
slice); unreachable under the resolver's contract. -/
def goPanicResponse : HttpResponse :=
  { status := 0, body := "panic: runtime error: index out of range", gzipped := false }

/-- Injective printing of a SensuObject, standing in for its JSON encoding. -/
def encodeObj (o : SensuObject) : String :=
  "(map=" ++ (if o.isMap then "true" else "false") ++ ",dc=" ++
    (Option.getD o.dc "null") ++ ",name=" ++ o.name ++ ",extra=" ++ o.extra ++ ")"

/-- JSON encoding of a list of Sensu objects. -/
def encodeObjList (l : List SensuObject) : String :=
  "[" ++ joinSep "," (l.map encodeObj) ++ "]"

/-- JSON encoding of a Go slice of Sensu objects: null for a nil slice. -/
def encodeObjSlice (s : GoSlice SensuObject) : String :=
  match s with
  | none => "null"
  | some l => encodeObjList l

/-- Injective printing of a Subscription, standing in for its JSON encoding. -/
def encodeSub (s : Subscription) : String := "(subscription=" ++ s.name ++ ")"

/-- JSON encoding of a Go slice of subscriptions: null for a nil slice. -/
def encodeSubSlice (s : GoSlice Subscription) : String :=
  match s with
  | none => "null"
  | some l => "[" ++ joinSep "," (l.map encodeSub) ++ "]"

/-- Modelled from the spec: the Resolver's FindByName (the uchiwa find
helpers findClient, findCheck, findAggregate and findStash are not among the
provided sources). Scans one kind's collection of the current snapshot across
all datacenters and returns the full match set; zero matches yield an error
(NotFound), per section 4.3. -/
def findByName (objs : List SensuObject) (name : String) : Except String (List SensuObject) :=
  match objs.filter (fun o => o.isMap && o.name == name) with
  | [] => Except.error ("Could not find any object with the name " ++ name)
  | l => Except.ok l

/-- Outcome of the datacenter-resolution block: either the handler already
wrote a response and returned, or the datacenter is now known. -/
inductive ResolveOut where
  | early (resp : HttpResponse)
  | resolved (dc : String)
deriving DecidableEq

/-- The datacenter resolution block that server.go repeats verbatim in
checkHandler, clientHandler, eventHandler, resultsHandler, stashHandler and
aggregateHandler when no dc query parameter was given: find the object by
name across datacenters (404 on a find error), filter the matches for the
token, answer 300 Multiple Choices with the visible matches when more than
one is visible, otherwise take the FIRST RAW match, require it to be a map
with a string "dc" field (500 `<nil>` otherwise), and resolve to that
datacenter. Go would panic on an empty raw match list, which the resolver's
error contract makes unreachable. -/
def resolveDcBlock (acceptGzip : Bool) (token : Token)
    (filterFn : List SensuObject → Token → GoSlice SensuObject)
    (findRes : Except String (List SensuObject)) : ResolveOut :=
  match findRes with
  | Except.error e => ResolveOut.early (httpError e 404)
  | Except.ok objs =>
    let visible := filterFn objs token
    if 1 < slen visible then
      ResolveOut.early
        { status := 300, body := encodeObjSlice visible ++ "\n", gzipped := acceptGzip }
    else
      match objs with
      | [] => ResolveOut.early goPanicResponse
      | c :: _ =>
        if c.isMap then
          match c.dc with
          | some d => ResolveOut.resolved d
          | none => ResolveOut.early (httpError nilErrText 500)
        else ResolveOut.early (httpError nilErrText 500)

/-- Continuation of checkHandler once the datacenter is known (server.go
lines 293-313): gate on Filters.GetRequest (404 with empty body when
unauthorized), then GetCheck (404 with the error text on failure, else the
encoded check). -/
def checkHandlerKnownDc (flt : Filters) (rm : Remote) (u : UchiwaState) (req : Request)
    (name dc : String) (calls0 : List UCall) : HandlerOut :=
  if flt.getRequest dc req.token then
    { resp := httpError "" 404, calls := calls0, finalData := u.data }
  else
    match rm.getCheck dc name with
    | Except.error e =>
      { resp := httpError e 404, calls := calls0 ++ [UCall.getCheck dc name],
        finalData := u.data }
    | Except.ok obj =>
      { resp := { status := 200, body := encodeObj obj ++ "\n", gzipped := false },
        calls := calls0 ++ [UCall.getCheck dc name], finalData := u.data }

/-- checkHandler, serving /checks/:name (server.go lines 219-313). -/
def checkHandler (flt : Filters) (rm : Remote) (u : UchiwaState) (req : Request) : HandlerOut :=
  if req.method ≠ "GET" ∧ req.method ≠ "HEAD" then
    { resp := httpError "" 400, calls := [], finalData := u.data }
  else
    let resources := splitSlash req.path
    if resources.length < 3 ∨ goIndex resources 2 = "" then
      { resp := httpError "" 400, calls := [], finalData := u.data }
    else
      let name := goIndex resources 2
      if req.dcQuery = "" then
        match resolveDcBlock req.acceptGzip req.token flt.checks (findByName u.data.checks name) with
        | ResolveOut.early resp =>
          { resp := resp, calls := [UCall.findCheck name], finalData := u.data }
        | ResolveOut.resolved d => checkHandlerKnownDc flt rm u req name d [UCall.findCheck name]
      else
        checkHandlerKnownDc flt rm u req name req.dcQuery []

/-- Continuation of clientHandler once the datacenter is known (server.go
lines 432-481): gate on Filters.GetRequest, then DELETE dispatches
DeleteClient (500 on failure, 202 on success), a 4-component path reads the
client history, and otherwise GetClient serves the client (404 with the error
text on failure). -/
def clientHandlerKnownDc (flt : Filters) (rm : Remote) (u : UchiwaState) (req : Request)
    (name dc : String) (calls0 : List UCall) : HandlerOut :=
  if flt.getRequest dc req.token then
    { resp := httpError "" 404, calls := calls0, finalData := u.data }
  else if req.method = "DELETE" then
    match rm.deleteClient dc name with
    | Except.error e =>
      { resp := httpError e 500, calls := calls0 ++ [UCall.deleteClient dc name],
        finalData := u.data }
    | Except.ok _ =>
      { resp := { status := 202, body := "", gzipped := false },
        calls := calls0 ++ [UCall.deleteClient dc name], finalData := u.data }
  else if (splitSlash req.path).length = 4 then
    match rm.getClientHistory dc name with
    | Except.error e =>
      { resp := httpError e 404, calls := calls0 ++ [UCall.getClientHistory dc name],
        finalData := u.data }
    | Except.ok l =>
      { resp := { status := 200, body := encodeObjList l ++ "\n", gzipped := false },
        calls := calls0 ++ [UCall.getClientHistory dc name], finalData := u.data }
  else
    match rm.getClient dc name with
    | Except.error e =>
      { resp := httpError e 404, calls := calls0 ++ [UCall.getClient dc name],
        finalData := u.data }
    | Except.ok obj =>
      { resp := { status := 200, body := encodeObj obj ++ "\n", gzipped := false },
        calls := calls0 ++ [UCall.getClient dc name], finalData := u.data }

/-- clientHandler, serving /clients/:client(/history)
(server.go lines 358-482). -/
def clientHandler (flt : Filters) (rm : Remote) (u : UchiwaState) (req : Request) : HandlerOut :=
  if req.method ≠ "DELETE" ∧ req.method ≠ "GET" ∧ req.method ≠ "HEAD" then
    { resp := httpError "" 400, calls := [], finalData := u.data }
  else
    let resources := splitSlash req.path
    if resources.length < 3 ∨ goIndex resources 2 = "" then
      { resp := httpError "" 400, calls := [], finalData := u.data }
    else
      let name := goIndex resources 2
      if req.dcQuery = "" then
        match resolveDcBlock req.acceptGzip req.token flt.clients (findByName u.data.clients name) with
        | ResolveOut.early resp =>
          { resp := resp, calls := [UCall.findClient name], finalData := u.data }
        | ResolveOut.resolved d => clientHandlerKnownDc flt rm u req name d [UCall.findClient name]
      else
        clientHandlerKnownDc flt rm u req name req.dcQuery []

/-- clientsHandler, serving /clients (server.go lines 485-551): GET/HEAD
lists the filtered clients (nil results replaced by an empty non-nil slice);
POST decodes a client payload, requires Filters.Client to authorize it (404
with empty body otherwise) and forwards it to UpdateClient (400 with the
error text on failure, 201 on success). -/
def clientsHandler (flt : Filters) (rm : Remote) (u : UchiwaState) (req : Request) : HandlerOut :=
  if req.method = "GET" ∨ req.method = "HEAD" then
    let clients := flt.clients u.data.clients req.token
    let clients := if slen clients = 0 then (some [] : GoSlice SensuObject) else clients
    { resp := { status := 200, body := encodeObjSlice clients ++ "\n", gzipped := req.acceptGzip },
      calls := [], finalData := u.data }
  else if req.method = "POST" then
    match req.bodyObj with
    | none =>
      { resp := httpError "Could not decode body" 500, calls := [], finalData := u.data }
    | some payload =>
      if flt.client payload req.token then
        match rm.updateClient payload with
        | Except.error e =>
          { resp := httpError e 400, calls := [UCall.updateClient payload],
            finalData := u.data }
        | Except.ok _ =>
          { resp := { status := 201, body := "", gzipped := false },
            calls := [UCall.updateClient payload], finalData := u.data }
      else
        { resp := httpError "" 404, calls := [], finalData := u.data }
  else
    { resp := httpError "" 400, calls := [], finalData := u.data }

/-- checksHandler, serving /checks (server.go lines 316-355). -/
def checksHandler (flt : Filters) (u : UchiwaState) (req : Request) : HandlerOut :=
  if req.method ≠ "GET" ∧ req.method ≠ "HEAD" then
    { resp := httpError "" 400, calls := [], finalData := u.data }
  else
    let checks := flt.checks u.data.checks req.token
    let checks := if slen checks = 0 then (some [] : GoSlice SensuObject) else checks
    { resp := { status := 200, body := encodeObjSlice checks ++ "\n", gzipped := req.acceptGzip },
      calls := [], finalData := u.data }

/-- eventsHandler, serving /events (server.go lines 751-791). -/
def eventsHandler (flt : Filters) (u : UchiwaState) (req : Request) : HandlerOut :=
  if req.method ≠ "GET" ∧ req.method ≠ "HEAD" then
    { resp := httpError "" 400, calls := [], finalData := u.data }
  else
    let events := flt.events u.data.events req.token
    let events := if slen events = 0 then (some [] : GoSlice SensuObject) else events
    { resp := { status := 200, body := encodeObjSlice events ++ "\n", gzipped := req.acceptGzip },
      calls := [], finalData := u.data }

/-- aggregatesHandler, serving /aggregates (server.go lines 176-216). -/
def aggregatesHandler (flt : Filters) (u : UchiwaState) (req : Request) : HandlerOut :=
  if req.method ≠ "GET" ∧ req.method ≠ "HEAD" then
    { resp := httpError "" 400, calls := [], finalData := u.data }
  else
    let aggregates := flt.aggregates u.data.aggregates req.token
    let aggregates := if slen aggregates = 0 then (some [] : GoSlice SensuObject) else aggregates
    { resp := { status := 200, body := encodeObjSlice aggregates ++ "\n", gzipped := req.acceptGzip },
      calls := [], finalData := u.data }

/-- Continuation of eventHandler once the datacenter is known (server.go
lines 733-747): gate on Filters.GetRequest, then ResolveEvent (500 with the
error text on failure, 202 on success). -/
def eventHandlerKnownDc (flt : Filters) (rm : Remote) (u : UchiwaState) (req : Request)
    (check client dc : String) (calls0 : List UCall) : HandlerOut :=
  if flt.getRequest dc req.token then
    { resp := httpError "" 404, calls := calls0, finalData := u.data }
  else
    match rm.resolveEvent check client dc with
    | Except.error e =>
      { resp := httpError e 500, calls := calls0 ++ [UCall.resolveEvent check client dc],
        finalData := u.data }
    | Except.ok _ =>
      { resp := { status := 202, body := "", gzipped := false },
        calls := calls0 ++ [UCall.resolveEvent check client dc], finalData := u.data }

/-- eventHandler, serving DELETE /events/:client/:check
(server.go lines 661-748). -/
def eventHandler (flt : Filters) (rm : Remote) (u : UchiwaState) (req : Request) : HandlerOut :=
  if req.method ≠ "DELETE" then
    { resp := httpError "" 400, calls := [], finalData := u.data }
  else
    let resources := splitSlash req.path
    if resources.length ≠ 4 then
      { resp := httpError "" 400, calls := [], finalData := u.data }
    else
      let check := goIndex resources 3
      let client := goIndex resources 2
      if req.dcQuery = "" then
        match resolveDcBlock req.acceptGzip req.token flt.clients (findByName u.data.clients client) with
        | ResolveOut.early resp =>
          { resp := resp, calls := [UCall.findClient client], finalData := u.data }
        | ResolveOut.resolved d =>
          eventHandlerKnownDc flt rm u req check client d [UCall.findClient client]
      else
        eventHandlerKnownDc flt rm u req check client req.dcQuery []

/-- Continuation of resultsHandler once the datacenter is known (server.go
lines 982-995): gate on Filters.GetRequest, then DeleteCheckResult (500 with
the error text on failure, 202 on success). -/
def resultsHandlerKnownDc (flt : Filters) (rm : Remote) (u : UchiwaState) (req : Request)
    (check client dc : String) (calls0 : List UCall) : HandlerOut :=
  if flt.getRequest dc req.token then
    { resp := httpError "" 404, calls := calls0, finalData := u.data }
  else
    match rm.deleteCheckResult check client dc with
    | Except.error e =>
      { resp := httpError e 500, calls := calls0 ++ [UCall.deleteCheckResult check client dc],
        finalData := u.data }
    | Except.ok _ =>
      { resp := { status := 202, body := "", gzipped := false },
        calls := calls0 ++ [UCall.deleteCheckResult check client dc], finalData := u.data }

/-- resultsHandler, serving DELETE /results/:client/:check
(server.go lines 910-996). -/
def resultsHandler (flt : Filters) (rm : Remote) (u : UchiwaState) (req : Request) : HandlerOut :=
  if req.method ≠ "DELETE" then
    { resp := httpError "" 400, calls := [], finalData := u.data }
  else
    let resources := splitSlash req.path
    if resources.length ≠ 4 then
      { resp := httpError "" 400, calls := [], finalData := u.data }
    else
      let check := goIndex resources 3
      let client := goIndex resources 2
      if req.dcQuery = "" then
        match resolveDcBlock req.acceptGzip req.token flt.clients (findByName u.data.clients client) with
        | ResolveOut.early resp =>
          { resp := resp, calls := [UCall.findClient client], finalData := u.data }
        | ResolveOut.resolved d =>
          resultsHandlerKnownDc flt rm u req check client d [UCall.findClient client]
      else
        resultsHandlerKnownDc flt rm u req check client req.dcQuery []

/-- Continuation of stashHandler once the datacenter is known (server.go
lines 1070-1084): gate on Filters.GetRequest, then DeleteStash (404 "Could
not create the stash" on failure, as in the source, 202 on success). -/
def stashHandlerKnownDc (flt : Filters) (rm : Remote) (u : UchiwaState) (req : Request)
    (path dc : String) (calls0 : List UCall) : HandlerOut :=
  if flt.getRequest dc req.token then
    { resp := httpError "" 404, calls := calls0, finalData := u.data }
  else
    match rm.deleteStash dc path with
    | Except.error _ =>
      { resp := httpError "Could not create the stash" 404,
        calls := calls0 ++ [UCall.deleteStash dc path], finalData := u.data }
    | Except.ok _ =>
      { resp := { status := 202, body := "", gzipped := false },
        calls := calls0 ++ [UCall.deleteStash dc path], finalData := u.data }

/-- stashHandler, serving DELETE /stashes/:path (server.go lines 999-1085).
With a 2-component path the Go code would index resources[2] out of range and
panic, which the /stashes/ route prefix makes unreachable. -/
def stashHandler (flt : Filters) (rm : Remote) (u : UchiwaState) (req : Request) : HandlerOut :=
  if req.method ≠ "DELETE" then
    { resp := httpError "" 400, calls := [], finalData := u.data }
  else
    let resources := splitSlash req.path
    if resources.length < 2 then
      { resp := httpError "" 400, calls := [], finalData := u.data }
    else if resources.length = 2 then
      { resp := goPanicResponse, calls := [], finalData := u.data }
    else if goIndex resources 2 = "" then
      { resp := httpError "" 400, calls := [], finalData := u.data }
    else
      let path := joinSep "/" (resources.drop 2)
      if req.dcQuery = "" then
        match resolveDcBlock req.acceptGzip req.token flt.stashes (findByName u.data.stashes path) with
        | ResolveOut.early resp =>
          { resp := resp, calls := [UCall.findStash path], finalData := u.data }
        | ResolveOut.resolved d => stashHandlerKnownDc flt rm u req path d [UCall.findStash path]
      else
        stashHandlerKnownDc flt rm u req path req.dcQuery []

/-- The creator overwrite of silencedHandler (server.go lines 1142-1144):
when the token carries a username claim, the payload's Creator field is
replaced by it. -/
def silenceWithTokenCreator (token : Token) (data0 : Silence) : Silence :=
  match token with
  | some ident =>
    match ident.username with
    | some un => { data0 with creator := un }
    | none => data0
  | none => data0

/-- The content-username overwrite of stashesHandler (server.go lines
1232-1234): when the token carries a username claim, it is stored under the
"username" key of the stash content. -/
def stashWithTokenUsername (token : Token) (data0 : Stash) : Stash :=
  match token with
  | some ident =>
    match ident.username with
    | some un => { data0 with contentUsername := some un }
    | none => data0
  | none => data0

/-- silencedHandler, serving /silenced and /silenced/clear (server.go lines
1088-1175). GET/HEAD lists the filtered silenced entries (nil results
replaced by an empty non-nil slice). POST decodes a silence payload, gates on
Filters.GetRequest for the payload's datacenter, overwrites the Creator field
with the token's username claim when present, then either clears the entry
(the /silenced/clear path) or validates it against the policy flags
(open-ended entries, then missing reason, each rejected with 404 and a
descriptive message) before dispatching PostSilence. -/
def silencedHandler (flt : Filters) (rm : Remote) (u : UchiwaState) (req : Request) : HandlerOut :=
  if req.method = "GET" ∨ req.method = "HEAD" then
    let silenced := flt.silenced u.data.silenced req.token
    let silenced := if slen silenced = 0 then (some [] : GoSlice SensuObject) else silenced
    { resp := { status := 200, body := encodeObjSlice silenced ++ "\n", gzipped := req.acceptGzip },
      calls := [], finalData := u.data }
  else if req.method = "POST" then
    match req.bodySilence with
    | none =>
      { resp := httpError "Could not decode body" 500, calls := [], finalData := u.data }
    | some data0 =>
      if flt.getRequest data0.dc req.token then
        { resp := httpError "" 404, calls := [], finalData := u.data }
      else
        let data1 := silenceWithTokenCreator req.token data0
        let resources := splitSlash req.path
        if 2 < resources.length ∧ goIndex resources 2 = "clear" then
          match rm.clearSilenced data1 with
          | Except.error _ =>
            { resp := httpError "Could not clear from entry in the silenced registry" 404,
              calls := [UCall.clearSilenced data1], finalData := u.data }
          | Except.ok _ =>
            { resp := { status := 200, body := "", gzipped := false },
              calls := [UCall.clearSilenced data1], finalData := u.data }
        else
          if u.config.usersOptions.disableNoExpiration = true ∧
              (data1.expire < 1 ∧ data1.expireOnResolve = false) then
            { resp := httpError "Open-ended silence entries are disallowed" 404,
              calls := [], finalData := u.data }
          else if u.config.usersOptions.requireSilencingReason = true ∧ data1.reason = "" then
            { resp := httpError "A reason must be provided for every silence entry" 404,
              calls := [], finalData := u.data }
          else
            match rm.postSilence data1 with
            | Except.error _ =>
              { resp := httpError "Could not create the entry in the silenced registry" 404,
                calls := [UCall.postSilence data1], finalData := u.data }
            | Except.ok _ =>
              { resp := { status := 200, body := "", gzipped := false },
                calls := [UCall.postSilence data1], finalData := u.data }
  else
    { resp := httpError "" 400, calls := [], finalData := u.data }

/-- stashesHandler, serving /stashes (server.go lines 1178-1245). GET/HEAD
lists the filtered stashes (nil results replaced by an empty non-nil slice);
POST decodes a stash payload, gates on Filters.GetRequest for the payload's
datacenter, stores the token's username claim into the stash content when
present and dispatches PostStash. -/
def stashesHandler (flt : Filters) (rm : Remote) (u : UchiwaState) (req : Request) : HandlerOut :=
  if req.method = "GET" ∨ req.method = "HEAD" then
    let stashes := flt.stashes u.data.stashes req.token
    let stashes := if slen stashes = 0 then (some [] : GoSlice SensuObject) else stashes
    { resp := { status := 200, body := encodeObjSlice stashes ++ "\n", gzipped := req.acceptGzip },
      calls := [], finalData := u.data }
  else if req.method = "POST" then
    match req.bodyStash with
    | none =>
      { resp := httpError "Could not decode body" 500, calls := [], finalData := u.data }
    | some data0 =>
      if flt.getRequest data0.dc req.token then
        { resp := httpError "" 404, calls := [], finalData := u.data }
      else
        let data1 := stashWithTokenUsername req.token data0
        match rm.postStash data1 with
        | Except.error _ =>
          { resp := httpError "Could not create the stash" 404,
            calls := [UCall.postStash data1], finalData := u.data }
        | Except.ok _ =>
          { resp := { status := 200, body := "", gzipped := false },
            calls := [UCall.postStash data1], finalData := u.data }
  else
    { resp := httpError "" 400, calls := [], finalData := u.data }

/-- subscriptionsHandler, serving /subscriptions (server.go lines 1278-1299);
no gzip branch exists for this endpoint. -/
def subscriptionsHandler (flt : Filters) (u : UchiwaState) (req : Request) : HandlerOut :=
  if req.method ≠ "GET" ∧ req.method ≠ "HEAD" then
    { resp := httpError "" 400, calls := [], finalData := u.data }
  else
    let subscriptions := flt.subscriptions u.data.subscriptions req.token
    let subscriptions :=
      if slen subscriptions = 0 then (some [] : GoSlice Subscription) else subscriptions
    { resp := { status := 200, body := encodeSubSlice subscriptions ++ "\n", gzipped := false },
      calls := [], finalData := u.data }

/-- subscriptionHandler, serving /subscriptions/:subscription (server.go
lines 1248-1275): the name is the joined path remainder; a one-element list
holding just that name is passed to Filters.Subscriptions, 404 when the
filter removes it and a bare 200 when it keeps it; the cached snapshot is
never consulted. With a 2-component path the Go code would index
resources[2] out of range and panic, which the /subscriptions/ route prefix
makes unreachable. -/
def subscriptionHandler (flt : Filters) (u : UchiwaState) (req : Request) : HandlerOut :=
  if req.method ≠ "GET" ∧ req.method ≠ "HEAD" then
    { resp := httpError "" 400, calls := [], finalData := u.data }
  else
    let resources := splitSlash req.path
    if resources.length < 2 then
      { resp := httpError "" 400, calls := [], finalData := u.data }
    else if resources.length = 2 then
      { resp := goPanicResponse, calls := [], finalData := u.data }
    else if goIndex resources 2 = "" then
      { resp := httpError "" 400, calls := [], finalData := u.data }
    else
      let name := joinSep "/" (resources.drop 2)
      let result := flt.subscriptions [{ name := name }] req.token
      if slen result = 0 then
        { resp := httpError "" 404, calls := [], finalData := u.data }
      else
        { resp := { status := 200, body := "", gzipped := false },
          calls := [], finalData := u.data }

/-- Continuation of aggregateHandler once the datacenter is known (server.go
lines 99-172): gate on Filters.GetRequest, then serve or delete the aggregate
(3-component path), its checks or clients sub-collection (4 components, 404
`<nil>` for an unknown sub-resource), or its results for a severity
(5 components); other shapes get 400. -/
def aggregateHandlerKnownDc (flt : Filters) (rm : Remote) (u : UchiwaState) (req : Request)
    (name dc : String) (calls0 : List UCall) : HandlerOut :=
  if flt.getRequest dc req.token then
    { resp := httpError "" 404, calls := calls0, finalData := u.data }
  else
    let resources := splitSlash req.path
    if resources.length = 3 then
      if req.method = "DELETE" then
        match rm.deleteAggregate name dc with
        | Except.error e =>
          { resp := httpError e 500, calls := calls0 ++ [UCall.deleteAggregate name dc],
            finalData := u.data }
        | Except.ok _ =>
          { resp := { status := 200, body := "", gzipped := false },
            calls := calls0 ++ [UCall.deleteAggregate name dc], finalData := u.data }
      else
        match rm.getAggregate name dc with
        | Except.error e =>
          { resp := httpError e 500, calls := calls0 ++ [UCall.getAggregate name dc],
            finalData := u.data }
        | Except.ok obj =>
          { resp := { status := 200, body := encodeObj obj ++ "\n", gzipped := false },
            calls := calls0 ++ [UCall.getAggregate name dc], finalData := u.data }
    else if resources.length = 4 then
      if goIndex resources 3 = "checks" then
        match rm.getAggregateChecks name dc with
        | Except.error e =>
          { resp := httpError e 500, calls := calls0 ++ [UCall.getAggregateChecks name dc],
            finalData := u.data }
        | Except.ok l =>
          { resp := { status := 200, body := encodeObjList l ++ "\n", gzipped := false },
            calls := calls0 ++ [UCall.getAggregateChecks name dc], finalData := u.data }
      else if goIndex resources 3 = "clients" then
        match rm.getAggregateClients name dc with
        | Except.error e =>
          { resp := httpError e 500, calls := calls0 ++ [UCall.getAggregateClients name dc],
            finalData := u.data }
        | Except.ok l =>
          { resp := { status := 200, body := encodeObjList l ++ "\n", gzipped := false },
            calls := calls0 ++ [UCall.getAggregateClients name dc], finalData := u.data }
      else
        { resp := httpError nilErrText 404, calls := calls0, finalData := u.data }
    else if resources.length = 5 then
      let severity := goIndex resources 4
      match rm.getAggregateResults name severity dc with
      | Except.error e =>
        { resp := httpError e 500,
          calls := calls0 ++ [UCall.getAggregateResults name severity dc], finalData := u.data }
      | Except.ok l =>
        { resp := { status := 200, body := encodeObjList l ++ "\n", gzipped := false },
          calls := calls0 ++ [UCall.getAggregateResults name severity dc], finalData := u.data }
    else
      { resp := httpError "" 400, calls := calls0, finalData := u.data }

/-- aggregateHandler, serving /aggregates/:name[...]
(server.go lines 27-173). -/
def aggregateHandler (flt : Filters) (rm : Remote) (u : UchiwaState) (req : Request) : HandlerOut :=
  if req.method ≠ "GET" ∧ req.method ≠ "HEAD" ∧ req.method ≠ "DELETE" then
    { resp := httpError "" 400, calls := [], finalData := u.data }
  else
    let resources := splitSlash req.path
    if resources.length < 3 ∨ goIndex resources 2 = "" then
      { resp := httpError "" 400, calls := [], finalData := u.data }
    else
      let name := goIndex resources 2
      if req.dcQuery = "" then
        match resolveDcBlock req.acceptGzip req.token flt.aggregates
            (findByName u.data.aggregates name) with
        | ResolveOut.early resp =>
          { resp := resp, calls := [UCall.findAggregate name], finalData := u.data }
        | ResolveOut.resolved d =>
          aggregateHandlerKnownDc flt rm u req name d [UCall.findAggregate name]
      else
        aggregateHandlerKnownDc flt rm u req name req.dcQuery []

/-- Modelled from the spec: the deny-by-default visibility rule of section
4.4 — an object is visible iff its owning datacenter is in the identity's
allowed set; a missing token or a missing owning datacenter denies. -/
def specVisible (token : Token) (o : SensuObject) : Bool :=
  match token, o.dc with
  | some ident, some d => ident.datacenters.contains d
  | _, _ => false

/-- Modelled from the spec: the authorization filter engine of section 4.4
(the filters package is not among the provided sources). Collections keep
exactly the visible objects in order; subscriptions carry no owning
datacenter, so an identity with a non-empty rule set sees them all and one
with no rules sees nothing; GetRequest denies unless the datacenter is in the
identity's allowed set; Client applies the visibility rule to the payload. -/
def specFilters : Filters :=
  { aggregates := fun objs token => some (objs.filter (specVisible token))
  , checks := fun objs token => some (objs.filter (specVisible token))
  , clients := fun objs token => some (objs.filter (specVisible token))
  , events := fun objs token => some (objs.filter (specVisible token))
  , silenced := fun objs token => some (objs.filter (specVisible token))
  , stashes := fun objs token => some (objs.filter (specVisible token))
  , subscriptions := fun subs token =>
      match token with
      | none => some []
      | some ident => if ident.datacenters.isEmpty then some [] else some subs
  , getRequest := fun d token =>
      match token with
      | none => true
      | some ident => !(ident.datacenters.contains d)
  , client := fun payload token => specVisible token payload }

/-- Modelled from the spec: a remote datacenter connection on which every
single-object lookup reports genuine absence and every write command
succeeds; used to instantiate the theorems at concrete inputs. -/
def specRemote : Remote :=
  { getCheck := fun _ _ => Except.error "Could not find the check"
  , getClient := fun _ _ => Except.error "Could not find the client"
  , getClientHistory := fun _ _ => Except.ok []
  , getAggregate := fun _ _ => Except.error "Could not find the aggregate"
  , getAggregateChecks := fun _ _ => Except.ok []
  , getAggregateClients := fun _ _ => Except.ok []
  , getAggregateResults := fun _ _ _ => Except.ok []
  , deleteAggregate := fun _ _ => Except.ok ()
  , deleteClient := fun _ _ => Except.ok ()
  , resolveEvent := fun _ _ _ => Except.ok ()
  , deleteCheckResult := fun _ _ _ => Except.ok ()
  , deleteStash := fun _ _ => Except.ok ()
  , updateClient := fun _ => Except.ok ()
  , postSilence := fun _ => Except.ok ()
  , clearSilenced := fun _ => Except.ok ()
  , postStash := fun _ => Except.ok () }

/-- An empty cached snapshot. -/
def dataEmpty : UchiwaData :=
  { clients := [], checks := [], aggregates := [], events := [], silenced := [],
    stashes := [], subscriptions := [] }

/-- A configuration with both silencing policy flags cleared. -/
def configAllowAll : UchiwaConfig :=
  { usersOptions := { disableNoExpiration := false, requireSilencingReason := false } }

/-- A configuration that requires a silencing reason. -/
def configNeedReason : UchiwaConfig :=
  { usersOptions := { disableNoExpiration := false, requireSilencingReason := true } }

/-- An object named foo owned by datacenter east. -/
def eastFooObj : SensuObject := { isMap := true, dc := some "east", name := "foo", extra := "a" }

/-- An object named foo owned by datacenter west. -/
def westFooObj : SensuObject := { isMap := true, dc := some "west", name := "foo", extra := "b" }

/-- An identity allowed only the west datacenter. -/
def identWest : Identity := { username := some "tom", datacenters := ["west"] }

/-- An identity allowed only the east datacenter. -/
def identEast : Identity := { username := some "alice", datacenters := ["east"] }

/-- An identity allowed both east and west. -/
def identBoth : Identity := { username := some "bob", datacenters := ["east", "west"] }

/-- State for the C1 scenario: empty snapshot, permissive config. -/
def uC1 : UchiwaState := { data := dataEmpty, config := configAllowAll }

/-- Request of an identity not authorized for the east datacenter it names. -/
def reqC1denied : Request :=
  { method := "GET", path := "/checks/foo", dcQuery := "east", acceptGzip := false,
    token := some identWest, bodyObj := none, bodySilence := none, bodyStash := none }

/-- Request of an identity authorized for east, naming an absent check. -/
def reqC1absent : Request :=
  { method := "GET", path := "/checks/foo", dcQuery := "east", acceptGzip := false,
    token := some identEast, bodyObj := none, bodySilence := none, bodyStash := none }

/-- State for the C2 counterexample: the name foo exists in east and west. -/
def uC2 : UchiwaState :=
  { data := { dataEmpty with checks := [eastFooObj, westFooObj] }, config := configAllowAll }

/-- Datacenter-less check lookup by a west-only identity. -/
def reqC2 : Request :=
  { method := "GET", path := "/checks/foo", dcQuery := "", acceptGzip := false,
    token := some identWest, bodyObj := none, bodySilence := none, bodyStash := none }

/-- State for the C2 witness: the name foo exists only in east. -/
def uC2w : UchiwaState :=
  { data := { dataEmpty with checks := [eastFooObj] }, config := configAllowAll }

/-- Datacenter-less check lookup by an east-only identity. -/
def reqC2w : Request :=
  { method := "GET", path := "/checks/foo", dcQuery := "", acceptGzip := false,
    token := some identEast, bodyObj := none, bodySilence := none, bodyStash := none }

/-- State for the C3 witness: policy requires a silencing reason. -/
def uC3 : UchiwaState := { data := dataEmpty, config := configNeedReason }

/-- A silence payload with an empty reason. -/
def silenceC3 : Silence :=
  { dc := "east", creator := "client-supplied", expire := 3600, expireOnResolve := false,
    reason := "" }

/-- POST of the reason-less silence payload by an authorized identity. -/
def reqC3 : Request :=
  { method := "POST", path := "/silenced", dcQuery := "", acceptGzip := false,
    token := some identEast, bodyObj := none, bodySilence := some silenceC3, bodyStash := none }

/-- State for the C4 witness: the client name foo exists in east and west. -/
def uC4 : UchiwaState :=
  { data := { dataEmpty with clients := [eastFooObj, westFooObj] }, config := configAllowAll }

/-- Datacenter-less client lookup by an identity that sees both matches. -/
def reqC4 : Request :=
  { method := "GET", path := "/clients/foo", dcQuery := "", acceptGzip := false,
    token := some identBoth, bodyObj := none, bodySilence := none, bodyStash := none }

/-- A client payload owned by east. -/
def payloadC6 : SensuObject :=
  { isMap := true, dc := some "east", name := "client1", extra := "" }

/-- POST of the east client payload by an east-authorized identity. -/
def reqC6ok : Request :=
  { method := "POST", path := "/clients", dcQuery := "", acceptGzip := false,
    token := some identEast, bodyObj := some payloadC6, bodySilence := none, bodyStash := none }

/-- POST of the east client payload by a west-only identity. -/
def reqC6denied : Request :=
  { method := "POST", path := "/clients", dcQuery := "", acceptGzip := false,
    token := some identWest, bodyObj := some payloadC6, bodySilence := none, bodyStash := none }

/-- Datacenter-less lookup of a name present in no datacenter. -/
def reqC7 : Request :=
  { method := "GET", path := "/clients/ghost", dcQuery := "", acceptGzip := false,
    token := some identEast, bodyObj := none, bodySilence := none, bodyStash := none }

/-- State for the C8 witness: every collection holds only east objects, so a
west-only identity sees none of them. -/
def uC8 : UchiwaState :=
  { data := { clients := [eastFooObj], checks := [eastFooObj], aggregates := [eastFooObj],
              events := [eastFooObj], silenced := [eastFooObj], stashes := [eastFooObj],
              subscriptions := [] },
    config := configAllowAll }

/-- Collection GET by the west-only identity. -/
def reqC8 : Request :=
  { method := "GET", path := "/clients", dcQuery := "", acceptGzip := false,
    token := some identWest, bodyObj := none, bodySilence := none, bodyStash := none }

/-- A silence payload carrying a client-supplied creator. -/
def silenceC9 : Silence :=
  { dc := "east", creator := "evil", expire := 0, expireOnResolve := false,
    reason := "maintenance" }

/-- State for the C9 witness: no silencing policy restrictions. -/
def uC9 : UchiwaState := { data := dataEmpty, config := configAllowAll }

/-- POST of the silence payload by the identity whose username is alice. -/
def reqC9 : Request :=
  { method := "POST", path := "/silenced", dcQuery := "", acceptGzip := false,
    token := some identEast, bodyObj := none, bodySilence := some silenceC9, bodyStash := none }

/-- The silence entry silencedHandler actually dispatches for reqC9. -/
def silenceC9out : Silence :=
  { dc := "east", creator := "alice", expire := 0, expireOnResolve := false,
    reason := "maintenance" }

/-- State for the C10 witness: no datacenter reports any subscription. -/
def uC10 : UchiwaState := { data := dataEmpty, config := configAllowAll }

/-- GET of a single named subscription by an authorized identity. -/
def reqC10 : Request :=
  { method := "GET", path := "/subscriptions/web", dcQuery := "", acceptGzip := false,
    token := some identEast, bodyObj := none, bodySilence := none, bodyStash := none }

/-- State for the C1 resolution-path witness: foo exists in east and west, so
a datacenter-less lookup resolves to east, the first raw match. -/
def uC1r : UchiwaState :=
  { data := { dataEmpty with checks := [eastFooObj, westFooObj] }, config := configAllowAll }

/-- Datacenter-less check lookup by a west-only identity, which the gate
denies for the resolved datacenter east. -/
def reqC1r : Request :=
  { method := "GET", path := "/checks/foo", dcQuery := "", acceptGzip := false,
    token := some identWest, bodyObj := none, bodySilence := none, bodyStash := none }

/-- POST of the reason-less silence payload by an identity that is NOT
authorized for its target datacenter east. -/
def reqC3denied : Request :=
  { method := "POST", path := "/silenced", dcQuery := "", acceptGzip := false,
    token := some identWest, bodyObj := none, bodySilence := some silenceC3, bodyStash := none }

@[simp] theorem goIndex_zero (a : String) (l : List String) : goIndex (a :: l) 0 = a := rfl

@[simp] theorem goIndex_succ (a : String) (l : List String) (n : Nat) :
    goIndex (a :: l) (n + 1) = goIndex l n := rfl

@[simp] theorem slen_some (α : Type) (l : List α) : slen (some l) = l.length := rfl

@[simp] theorem slen_none (α : Type) : slen (none : GoSlice α) = 0 := rfl

theorem clientHandler_finalData (flt : Filters) (rm : Remote) (u : UchiwaState) (req : Request) :
    (clientHandler flt rm u req).finalData = u.data := by
  simp only [clientHandler, clientHandlerKnownDc]
  repeat' split
  all_goals rfl

theorem eventHandler_finalData (flt : Filters) (rm : Remote) (u : UchiwaState) (req : Request) :
    (eventHandler flt rm u req).finalData = u.data := by
  simp only [eventHandler, eventHandlerKnownDc]
  repeat' split
  all_goals rfl

theorem resultsHandler_finalData (flt : Filters) (rm : Remote) (u : UchiwaState) (req : Request) :
    (resultsHandler flt rm u req).finalData = u.data := by
  simp only [resultsHandler, resultsHandlerKnownDc]
  repeat' split
  all_goals rfl

theorem stashHandler_finalData (flt : Filters) (rm : Remote) (u : UchiwaState) (req : Request) :
    (stashHandler flt rm u req).finalData = u.data := by
  simp only [stashHandler, stashHandlerKnownDc]
  repeat' split
  all_goals rfl

theorem silencedHandler_finalData (flt : Filters) (rm : Remote) (u : UchiwaState) (req : Request) :
    (silencedHandler flt rm u req).finalData = u.data := by
  simp only [silencedHandler]
  repeat' split
  all_goals rfl

theorem stashesHandler_finalData (flt : Filters) (rm : Remote) (u : UchiwaState) (req : Request) :
    (stashesHandler flt rm u req).finalData = u.data := by
  simp only [stashesHandler]
  repeat' split
  all_goals rfl

/-- C5: no write-command handler path (delete client, resolve event, delete
check result, delete stash, create or clear silence, create stash) mutates
the cached snapshot data; whatever the outcome, the cache the handler leaves
behind is the one it started from, and only a later poll cycle can change
what reads observe. -/
theorem write_handlers_preserve_cache (flt : Filters) (rm : Remote) (u : UchiwaState)
    (req : Request) :
    (clientHandler flt rm u req).finalData = u.data ∧
    (eventHandler flt rm u req).finalData = u.data ∧
    (resultsHandler flt rm u req).finalData = u.data ∧
    (stashHandler flt rm u req).finalData = u.data ∧
    (silencedHandler flt rm u req).finalData = u.data ∧
    (stashesHandler flt rm u req).finalData = u.data :=
  ⟨clientHandler_finalData flt rm u req, eventHandler_finalData flt rm u req,
   resultsHandler_finalData flt rm u req, stashHandler_finalData flt rm u req,
   silencedHandler_finalData flt rm u req, stashesHandler_finalData flt rm u req⟩

/-- C1 (amended): whenever the target datacenter is known — given directly
through the dc query parameter or found via name resolution — an identity
the filter rejects for that datacenter receives 404 Not Found with an empty
body, the same 404 status as a genuinely absent object and never a distinct
Forbidden code, while a genuinely absent object yields 404 with the backend
error text as body; the two responses coincide in status but their bodies
coincide only when that error text is empty. -/
theorem checkClientHandlers_unauthorized_denial_status (flt : Filters) (rm : Remote)
    (u : UchiwaState) (req : Request) (name : String) (c : SensuObject)
    (rest : List SensuObject) (d : String) (hm : req.method = "GET") :
    (splitSlash req.path = ["", "checks", name] → name ≠ "" →
      req.dcQuery = d → d ≠ "" →
      (flt.getRequest d req.token = true →
        (checkHandler flt rm u req).resp = { status := 404, body := "\n", gzipped := false }) ∧
      (∀ e, flt.getRequest d req.token = false →
        rm.getCheck d name = Except.error e →
        (checkHandler flt rm u req).resp = { status := 404, body := e ++ "\n", gzipped := false })) ∧
    (splitSlash req.path = ["", "checks", name] → name ≠ "" →
      req.dcQuery = "" →
      findByName u.data.checks name = Except.ok (c :: rest) →
      ¬ 1 < slen (flt.checks (c :: rest) req.token) →
      c.isMap = true → c.dc = some d →
      (flt.getRequest d req.token = true →
        (checkHandler flt rm u req).resp = { status := 404, body := "\n", gzipped := false }) ∧
      (∀ e, flt.getRequest d req.token = false →
        rm.getCheck d name = Except.error e →
        (checkHandler flt rm u req).resp = { status := 404, body := e ++ "\n", gzipped := false })) ∧
    (splitSlash req.path = ["", "clients", name] → name ≠ "" →
      req.dcQuery = d → d ≠ "" →
      (flt.getRequest d req.token = true →
        (clientHandler flt rm u req).resp = { status := 404, body := "\n", gzipped := false }) ∧
      (∀ e, flt.getRequest d req.token = false →
        rm.getClient d name = Except.error e →
        (clientHandler flt rm u req).resp = { status := 404, body := e ++ "\n", gzipped := false })) ∧
    (splitSlash req.path = ["", "clients", name] → name ≠ "" →
      req.dcQuery = "" →
      findByName u.data.clients name = Except.ok (c :: rest) →
      ¬ 1 < slen (flt.clients (c :: rest) req.token) →
      c.isMap = true → c.dc = some d →
      (flt.getRequest d req.token = true →
        (clientHandler flt rm u req).resp = { status := 404, body := "\n", gzipped := false }) ∧
      (∀ e, flt.getRequest d req.token = false →
        rm.getClient d name = Except.error e →
        (clientHandler flt rm u req).resp = { status := 404, body := e ++ "\n", gzipped := false })) := by
  refine ⟨?_, ?_, ?_, ?_⟩
  · intro hsplit hn hdq hdne
    constructor
    · intro hauth
      simp [checkHandler, checkHandlerKnownDc, hm, hsplit, hn, hdq, hdne, hauth, httpError]
    · intro e hauth hget
      simp [checkHandler, checkHandlerKnownDc, hm, hsplit, hn, hdq, hdne, hauth, hget, httpError]
  · intro hsplit hn hdq hfind hnv hmap hcdc
    constructor
    · intro hauth
      simp [checkHandler, checkHandlerKnownDc, resolveDcBlock, hm, hsplit, hn, hdq, hfind,
        hnv, hmap, hcdc, hauth, httpError]
    · intro e hauth hget
      simp [checkHandler, checkHandlerKnownDc, resolveDcBlock, hm, hsplit, hn, hdq, hfind,
        hnv, hmap, hcdc, hauth, hget, httpError]
  · intro hsplit hn hdq hdne
    constructor
    · intro hauth
      simp [clientHandler, clientHandlerKnownDc, hm, hsplit, hn, hdq, hdne, hauth, httpError]
    · intro e hauth hget
      simp [clientHandler, clientHandlerKnownDc, hm, hsplit, hn, hdq, hdne, hauth, hget, httpError]
  · intro hsplit hn hdq hfind hnv hmap hcdc
    constructor
    · intro hauth
      simp [clientHandler, clientHandlerKnownDc, resolveDcBlock, hm, hsplit, hn, hdq, hfind,
        hnv, hmap, hcdc, hauth, httpError]
    · intro e hauth hget
      simp [clientHandler, clientHandlerKnownDc, resolveDcBlock, hm, hsplit, hn, hdq, hfind,
        hnv, hmap, hcdc, hauth, hget, httpError]

theorem checkClientHandlers_unauthorized_denial_status_witness :
    (checkHandler specFilters specRemote uC1 reqC1denied).resp =
      { status := 404, body := "\n", gzipped := false } ∧
    (checkHandler specFilters specRemote uC1r reqC1r).resp =
      { status := 404, body := "\n", gzipped := false } :=
  ⟨((checkClientHandlers_unauthorized_denial_status specFilters specRemote uC1 reqC1denied
      "foo" eastFooObj [] "east" rfl).1 (by decide) (by decide) rfl (by decide)).1 (by decide),
   ((checkClientHandlers_unauthorized_denial_status specFilters specRemote uC1r reqC1r
      "foo" eastFooObj [westFooObj] "east" rfl).2.1 (by decide) (by decide) rfl (by decide)
      (by decide) rfl rfl).1 (by decide)⟩

theorem denial_body_differs_from_absence_body :
    (checkHandler specFilters specRemote uC1 reqC1denied).resp.status =
      (checkHandler specFilters specRemote uC1 reqC1absent).resp.status ∧
    (checkHandler specFilters specRemote uC1 reqC1denied).resp.body ≠
      (checkHandler specFilters specRemote uC1 reqC1absent).resp.body := by
  constructor
  · rfl
  · decide

/-- C2 (amended): on a datacenter-less single-object lookup whose
authorization-filtered match set has exactly one element, the handler
resolves the request to the owning datacenter of the FIRST element of the
unfiltered match set — which is the single visible match only when that
first element is the visible one — and proceeds against that datacenter iff
the identity is authorized for it. -/
theorem datacenterless_lookup_uses_first_raw_match (flt : Filters) (rm : Remote)
    (u : UchiwaState) (req : Request) (name : String) (c : SensuObject)
    (rest : List SensuObject) (d : String)
    (hm : req.method = "GET") (hdc : req.dcQuery = "")
    (hmap : c.isMap = true) (hcdc : c.dc = some d) :
    (splitSlash req.path = ["", "checks", name] → name ≠ "" →
      findByName u.data.checks name = Except.ok (c :: rest) →
      slen (flt.checks (c :: rest) req.token) = 1 →
      flt.getRequest d req.token = false →
      UCall.getCheck d name ∈ (checkHandler flt rm u req).calls) ∧
    (splitSlash req.path = ["", "aggregates", name] → name ≠ "" →
      findByName u.data.aggregates name = Except.ok (c :: rest) →
      slen (flt.aggregates (c :: rest) req.token) = 1 →
      flt.getRequest d req.token = false →
      UCall.getAggregate name d ∈ (aggregateHandler flt rm u req).calls) := by
  constructor
  · intro hsplit hn hfind hvis hauth
    cases hg : rm.getCheck d name with
    | error e =>
      simp [checkHandler, checkHandlerKnownDc, resolveDcBlock, hm, hsplit, hn, hdc, hfind,
        hvis, hmap, hcdc, hauth, hg]
    | ok obj =>
      simp [checkHandler, checkHandlerKnownDc, resolveDcBlock, hm, hsplit, hn, hdc, hfind,
        hvis, hmap, hcdc, hauth, hg]
  · intro hsplit hn hfind hvis hauth
    cases hg : rm.getAggregate name d with
    | error e =>
      simp [aggregateHandler, aggregateHandlerKnownDc, resolveDcBlock, hm, hsplit, hn, hdc,
        hfind, hvis, hmap, hcdc, hauth, hg]
    | ok obj =>
      simp [aggregateHandler, aggregateHandlerKnownDc, resolveDcBlock, hm, hsplit, hn, hdc,
        hfind, hvis, hmap, hcdc, hauth, hg]

theorem datacenterless_lookup_uses_first_raw_match_witness :
    UCall.getCheck "east" "foo" ∈ (checkHandler specFilters specRemote uC2w reqC2w).calls :=
  (datacenterless_lookup_uses_first_raw_match specFilters specRemote uC2w reqC2w "foo"
    eastFooObj [] "east" rfl rfl rfl rfl).1 (by decide) (by decide) (by decide) (by decide)
    (by decide)

theorem single_visible_match_ignored_for_resolution :
    findByName uC2.data.checks "foo" = Except.ok [eastFooObj, westFooObj] ∧
    specFilters.checks [eastFooObj, westFooObj] reqC2.token = some [westFooObj] ∧
    westFooObj.dc = some "west" ∧
    (checkHandler specFilters specRemote uC2 reqC2).resp.status = 404 ∧
    (checkHandler specFilters specRemote uC2 reqC2).calls = [UCall.findCheck "foo"] := by
  refine ⟨by decide, by decide, rfl, ?_, ?_⟩
  · decide
  · decide

@[simp] theorem silenceWithTokenCreator_dc (t : Token) (s : Silence) :
    (silenceWithTokenCreator t s).dc = s.dc := by
  unfold silenceWithTokenCreator
  repeat' split
  all_goals rfl

@[simp] theorem silenceWithTokenCreator_expire (t : Token) (s : Silence) :
    (silenceWithTokenCreator t s).expire = s.expire := by
  unfold silenceWithTokenCreator
  repeat' split
  all_goals rfl

@[simp] theorem silenceWithTokenCreator_expireOnResolve (t : Token) (s : Silence) :
    (silenceWithTokenCreator t s).expireOnResolve = s.expireOnResolve := by
  unfold silenceWithTokenCreator
  repeat' split
  all_goals rfl

@[simp] theorem silenceWithTokenCreator_reason (t : Token) (s : Silence) :
    (silenceWithTokenCreator t s).reason = s.reason := by
  unfold silenceWithTokenCreator
  repeat' split
  all_goals rfl

theorem silenceWithTokenCreator_some (ident : Identity) (un : String) (s : Silence)
    (h : ident.username = some un) :
    silenceWithTokenCreator (some ident) s = { s with creator := un } := by
  simp [silenceWithTokenCreator, h]

/-- C3 (amended): a POST creating a silence entry that violates local policy
— an empty reason under RequireSilencingReason, or an open-ended entry
(expire below 1 and not expire-on-resolve) under DisableNoExpiration — never
reaches PostSilence; when the identity is authorized for the payload's
datacenter the handler rejects it with 404 and the descriptive policy
message, while an unauthorized identity is rejected by the earlier
authorization gate with 404 and an empty body. -/
theorem silenced_post_policy_validation (flt : Filters) (rm : Remote) (u : UchiwaState)
    (req : Request) (s : Silence)
    (hm : req.method = "POST") (hbody : req.bodySilence = some s)
    (hclear : ¬ (2 < (splitSlash req.path).length ∧ goIndex (splitSlash req.path) 2 = "clear"))
    (hviol : (u.config.usersOptions.disableNoExpiration = true ∧ s.expire < 1 ∧
                s.expireOnResolve = false) ∨
             (u.config.usersOptions.requireSilencingReason = true ∧ s.reason = "")) :
    (∀ s2, UCall.postSilence s2 ∉ (silencedHandler flt rm u req).calls) ∧
    (flt.getRequest s.dc req.token = true →
      (silencedHandler flt rm u req).resp = { status := 404, body := "\n", gzipped := false }) ∧
    (flt.getRequest s.dc req.token = false →
      (silencedHandler flt rm u req).resp.status = 404 ∧
      ((silencedHandler flt rm u req).resp.body = "Open-ended silence entries are disallowed\n" ∨
       (silencedHandler flt rm u req).resp.body =
         "A reason must be provided for every silence entry\n")) := by
  cases hg : flt.getRequest s.dc req.token with
  | true =>
    refine ⟨fun s2 => ?_, fun _ => ?_, fun hfalse => absurd hfalse (by decide)⟩
    · simp [silencedHandler, hm, hbody, hg, httpError]
    · simp [silencedHandler, hm, hbody, hg, httpError]
  | false =>
    have hrest :
        silencedHandler flt rm u req =
          if u.config.usersOptions.disableNoExpiration = true ∧
              (s.expire < 1 ∧ s.expireOnResolve = false) then
            { resp := httpError "Open-ended silence entries are disallowed" 404,
              calls := [], finalData := u.data }
          else if u.config.usersOptions.requireSilencingReason = true ∧ s.reason = "" then
            { resp := httpError "A reason must be provided for every silence entry" 404,
              calls := [], finalData := u.data }
          else
            match rm.postSilence (silenceWithTokenCreator req.token s) with
            | Except.error _ =>
              { resp := httpError "Could not create the entry in the silenced registry" 404,
                calls := [UCall.postSilence (silenceWithTokenCreator req.token s)],
                finalData := u.data }
            | Except.ok _ =>
              { resp := { status := 200, body := "", gzipped := false },
                calls := [UCall.postSilence (silenceWithTokenCreator req.token s)],
                finalData := u.data } := by
      simp [silencedHandler, hm, hbody, hg, hclear]
    rcases hviol with hv | hv
    · rw [hrest, if_pos ⟨hv.1, hv.2.1, hv.2.2⟩]
      exact ⟨fun s2 => by simp, fun htrue => absurd htrue (by decide),
        fun _ => ⟨rfl, Or.inl rfl⟩⟩
    · by_cases h1 : u.config.usersOptions.disableNoExpiration = true ∧
        (s.expire < 1 ∧ s.expireOnResolve = false)
      · rw [hrest, if_pos h1]
        exact ⟨fun s2 => by simp, fun htrue => absurd htrue (by decide),
          fun _ => ⟨rfl, Or.inl rfl⟩⟩
      · rw [hrest, if_neg h1, if_pos hv]
        exact ⟨fun s2 => by simp, fun htrue => absurd htrue (by decide),
          fun _ => ⟨rfl, Or.inr rfl⟩⟩

theorem silenced_post_policy_validation_witness :
    UCall.postSilence silenceC3 ∉ (silencedHandler specFilters specRemote uC3 reqC3).calls ∧
    (silencedHandler specFilters specRemote uC3 reqC3).resp.status = 404 ∧
    ((silencedHandler specFilters specRemote uC3 reqC3).resp.body =
       "Open-ended silence entries are disallowed\n" ∨
     (silencedHandler specFilters specRemote uC3 reqC3).resp.body =
       "A reason must be provided for every silence entry\n") ∧
    (silencedHandler specFilters specRemote uC3 reqC3denied).resp =
      { status := 404, body := "\n", gzipped := false } := by
  have h := silenced_post_policy_validation specFilters specRemote uC3 reqC3 silenceC3
    rfl rfl (by decide) (Or.inr ⟨rfl, rfl⟩)
  have hd := silenced_post_policy_validation specFilters specRemote uC3 reqC3denied silenceC3
    rfl rfl (by decide) (Or.inr ⟨rfl, rfl⟩)
  exact ⟨h.1 silenceC3, (h.2.2 rfl).1, (h.2.2 rfl).2, hd.2.1 (by decide)⟩

theorem policy_violation_rejected_without_reason_when_unauthorized :
    uC3.config.usersOptions.requireSilencingReason = true ∧
    silenceC3.reason = "" ∧
    (silencedHandler specFilters specRemote uC3 reqC3denied).resp.status = 404 ∧
    (silencedHandler specFilters specRemote uC3 reqC3denied).calls = [] ∧
    (silencedHandler specFilters specRemote uC3 reqC3denied).resp.body = "\n" ∧
    (silencedHandler specFilters specRemote uC3 reqC3denied).resp.body ≠
      "A reason must be provided for every silence entry\n" ∧
    (silencedHandler specFilters specRemote uC3 reqC3denied).resp.body ≠
      "Open-ended silence entries are disallowed\n" := by
  decide

/-- C4: a datacenter-less single-object lookup whose authorization-filtered
match set holds more than one element answers 300 Multiple Choices with the
full visible match set as body — each candidate carrying its dc field — and
invokes nothing on the core beyond the name resolution itself, so no
candidate is ever picked to proceed with. -/
theorem multiple_visible_matches_yield_multiple_choices (flt : Filters) (rm : Remote)
    (u : UchiwaState) (req : Request) (name : String)
    (hm : req.method = "GET") (hdc : req.dcQuery = "") :
    (splitSlash req.path = ["", "clients", name] → name ≠ "" →
      ∀ ms, findByName u.data.clients name = Except.ok ms →
      1 < slen (flt.clients ms req.token) →
      (clientHandler flt rm u req).resp =
        { status := 300, body := encodeObjSlice (flt.clients ms req.token) ++ "\n",
          gzipped := req.acceptGzip } ∧
      (clientHandler flt rm u req).calls = [UCall.findClient name]) ∧
    (splitSlash req.path = ["", "aggregates", name] → name ≠ "" →
      ∀ ms, findByName u.data.aggregates name = Except.ok ms →
      1 < slen (flt.aggregates ms req.token) →
      (aggregateHandler flt rm u req).resp =
        { status := 300, body := encodeObjSlice (flt.aggregates ms req.token) ++ "\n",
          gzipped := req.acceptGzip } ∧
      (aggregateHandler flt rm u req).calls = [UCall.findAggregate name]) := by
  constructor
  · intro hsplit hn ms hfind hvis
    constructor
    · simp [clientHandler, resolveDcBlock, hm, hsplit, hn, hdc, hfind, hvis]
    · simp [clientHandler, resolveDcBlock, hm, hsplit, hn, hdc, hfind, hvis]
  · intro hsplit hn ms hfind hvis
    constructor
    · simp [aggregateHandler, resolveDcBlock, hm, hsplit, hn, hdc, hfind, hvis]
    · simp [aggregateHandler, resolveDcBlock, hm, hsplit, hn, hdc, hfind, hvis]

theorem multiple_visible_matches_yield_multiple_choices_witness :
    (clientHandler specFilters specRemote uC4 reqC4).resp =
      { status := 300,
        body := encodeObjSlice (specFilters.clients [eastFooObj, westFooObj] reqC4.token) ++ "\n",
        gzipped := false } ∧
    (clientHandler specFilters specRemote uC4 reqC4).calls = [UCall.findClient "foo"] :=
  (multiple_visible_matches_yield_multiple_choices specFilters specRemote uC4 reqC4 "foo"
    rfl rfl).1 (by decide) (by decide) [eastFooObj, westFooObj] (by decide) (by decide)

/-- C6: a POSTed client payload is accepted only after the per-object
authorization filter approves it: a rejected payload yields 404 Not Found
with an empty body and no core invocation at all (in particular UpdateClient
is never called), while an approved payload is forwarded to UpdateClient. -/
theorem post_client_gated_by_filter (flt : Filters) (rm : Remote) (u : UchiwaState)
    (req : Request) (p : SensuObject)
    (hm : req.method = "POST") (hbody : req.bodyObj = some p) :
    (flt.client p req.token = false →
      (clientsHandler flt rm u req).resp = { status := 404, body := "\n", gzipped := false } ∧
      (clientsHandler flt rm u req).calls = []) ∧
    (flt.client p req.token = true →
      UCall.updateClient p ∈ (clientsHandler flt rm u req).calls) := by
  constructor
  · intro hauth
    constructor
    · simp [clientsHandler, hm, hbody, hauth, httpError]
    · simp [clientsHandler, hm, hbody, hauth]
  · intro hauth
    cases hup : rm.updateClient p with
    | error e => simp [clientsHandler, hm, hbody, hauth, hup]
    | ok v => simp [clientsHandler, hm, hbody, hauth, hup]

theorem post_client_gated_by_filter_witness :
    ((clientsHandler specFilters specRemote uC1 reqC6denied).resp =
        { status := 404, body := "\n", gzipped := false } ∧
      (clientsHandler specFilters specRemote uC1 reqC6denied).calls = []) ∧
    UCall.updateClient payloadC6 ∈ (clientsHandler specFilters specRemote uC1 reqC6ok).calls :=
  ⟨(post_client_gated_by_filter specFilters specRemote uC1 reqC6denied payloadC6
      rfl rfl).1 (by decide),
   (post_client_gated_by_filter specFilters specRemote uC1 reqC6ok payloadC6
      rfl rfl).2 (by decide)⟩

/-- C7: a datacenter-less single-object lookup of a name matching nothing in
any datacenter makes the find call fail, and the handler answers 404 Not
Found having invoked nothing on the core except that find call — no further
access or dispatch happens. -/
theorem zero_matches_return_not_found (flt : Filters) (rm : Remote) (u : UchiwaState)
    (req : Request) (name : String)
    (hm : req.method = "GET") (hdc : req.dcQuery = "") :
    (splitSlash req.path = ["", "clients", name] → name ≠ "" →
      u.data.clients.filter (fun o => o.isMap && o.name == name) = [] →
      (clientHandler flt rm u req).resp.status = 404 ∧
      (clientHandler flt rm u req).calls = [UCall.findClient name]) ∧
    (splitSlash req.path = ["", "checks", name] → name ≠ "" →
      u.data.checks.filter (fun o => o.isMap && o.name == name) = [] →
      (checkHandler flt rm u req).resp.status = 404 ∧
      (checkHandler flt rm u req).calls = [UCall.findCheck name]) := by
  constructor
  · intro hsplit hn hfilter
    constructor
    · simp [clientHandler, resolveDcBlock, findByName, hm, hsplit, hn, hdc, hfilter, httpError]
    · simp [clientHandler, resolveDcBlock, findByName, hm, hsplit, hn, hdc, hfilter]
  · intro hsplit hn hfilter
    constructor
    · simp [checkHandler, resolveDcBlock, findByName, hm, hsplit, hn, hdc, hfilter, httpError]
    · simp [checkHandler, resolveDcBlock, findByName, hm, hsplit, hn, hdc, hfilter]

theorem zero_matches_return_not_found_witness :
    (clientHandler specFilters specRemote uC1 reqC7).resp.status = 404 ∧
    (clientHandler specFilters specRemote uC1 reqC7).calls = [UCall.findClient "ghost"] :=
  (zero_matches_return_not_found specFilters specRemote uC1 reqC7 "ghost" rfl rfl).1
    (by decide) (by decide) (by decide)

/-- C8: every collection read endpoint whose authorization filter leaves
nothing visible answers 200 with the JSON array of length zero as body —
the nil-slice guard makes the body the literal empty array, never null —
and no error status. -/
theorem empty_filter_results_encode_empty_array (flt : Filters) (rm : Remote)
    (u : UchiwaState) (req : Request) (hm : req.method = "GET") :
    (slen (flt.clients u.data.clients req.token) = 0 →
      (clientsHandler flt rm u req).resp =
        { status := 200, body := "[]\n", gzipped := req.acceptGzip }) ∧
    (slen (flt.checks u.data.checks req.token) = 0 →
      (checksHandler flt u req).resp =
        { status := 200, body := "[]\n", gzipped := req.acceptGzip }) ∧
    (slen (flt.events u.data.events req.token) = 0 →
      (eventsHandler flt u req).resp =
        { status := 200, body := "[]\n", gzipped := req.acceptGzip }) ∧
    (slen (flt.aggregates u.data.aggregates req.token) = 0 →
      (aggregatesHandler flt u req).resp =
        { status := 200, body := "[]\n", gzipped := req.acceptGzip }) ∧
    (slen (flt.silenced u.data.silenced req.token) = 0 →
      (silencedHandler flt rm u req).resp =
        { status := 200, body := "[]\n", gzipped := req.acceptGzip }) ∧
    (slen (flt.stashes u.data.stashes req.token) = 0 →
      (stashesHandler flt rm u req).resp =
        { status := 200, body := "[]\n", gzipped := req.acceptGzip }) ∧
    (slen (flt.subscriptions u.data.subscriptions req.token) = 0 →
      (subscriptionsHandler flt u req).resp =
        { status := 200, body := "[]\n", gzipped := false }) := by
  have hemp : encodeObjSlice (some []) ++ "\n" = "[]\n" := by decide
  have hsub : encodeSubSlice (some []) ++ "\n" = "[]\n" := by decide
  refine ⟨fun h0 => ?_, fun h0 => ?_, fun h0 => ?_, fun h0 => ?_, fun h0 => ?_,
    fun h0 => ?_, fun h0 => ?_⟩
  · simp [clientsHandler, hm, h0, hemp]
  · simp [checksHandler, hm, h0, hemp]
  · simp [eventsHandler, hm, h0, hemp]
  · simp [aggregatesHandler, hm, h0, hemp]
  · simp [silencedHandler, hm, h0, hemp]
  · simp [stashesHandler, hm, h0, hemp]
  · simp [subscriptionsHandler, hm, h0, hsub]

theorem empty_filter_results_encode_empty_array_witness :
    (clientsHandler specFilters specRemote uC8 reqC8).resp =
      { status := 200, body := "[]\n", gzipped := false } ∧
    (checksHandler specFilters uC8 reqC8).resp =
      { status := 200, body := "[]\n", gzipped := false } ∧
    (eventsHandler specFilters uC8 reqC8).resp =
      { status := 200, body := "[]\n", gzipped := false } ∧
    (aggregatesHandler specFilters uC8 reqC8).resp =
      { status := 200, body := "[]\n", gzipped := false } ∧
    (silencedHandler specFilters specRemote uC8 reqC8).resp =
      { status := 200, body := "[]\n", gzipped := false } ∧
    (stashesHandler specFilters specRemote uC8 reqC8).resp =
      { status := 200, body := "[]\n", gzipped := false } ∧
    (subscriptionsHandler specFilters uC8 reqC8).resp =
      { status := 200, body := "[]\n", gzipped := false } := by
  have h := empty_filter_results_encode_empty_array specFilters specRemote uC8 reqC8 rfl
  exact ⟨h.1 (by decide), h.2.1 (by decide), h.2.2.1 (by decide), h.2.2.2.1 (by decide),
    h.2.2.2.2.1 (by decide), h.2.2.2.2.2.1 (by decide), h.2.2.2.2.2.2 (by decide)⟩

/-- C9: on every POST to the silenced endpoint — create or clear alike —
whose token carries a username claim, any silence entry handed to the core
(PostSilence or ClearSilenced) is exactly the decoded payload with its
Creator field overwritten by that username, discarding whatever creator the
client supplied. -/
theorem silenced_post_overwrites_creator (flt : Filters) (rm : Remote) (u : UchiwaState)
    (req : Request) (s : Silence) (ident : Identity) (un : String)
    (hm : req.method = "POST") (hbody : req.bodySilence = some s)
    (htok : req.token = some ident) (hun : ident.username = some un) :
    ∀ s2, (UCall.postSilence s2 ∈ (silencedHandler flt rm u req).calls ∨
           UCall.clearSilenced s2 ∈ (silencedHandler flt rm u req).calls) →
      s2 = { s with creator := un } := by
  intro s2 hs2
  have hover : silenceWithTokenCreator req.token s = { s with creator := un } := by
    rw [htok]
    exact silenceWithTokenCreator_some ident un s hun
  simp only [silencedHandler, hm, hbody] at hs2
  simp only [hover] at hs2
  repeat' split at hs2
  all_goals simp_all

theorem silenced_post_overwrites_creator_witness :
    silenceC9out = { silenceC9 with creator := "alice" } :=
  silenced_post_overwrites_creator specFilters specRemote uC9 reqC9 silenceC9 identEast
    "alice" rfl rfl rfl rfl silenceC9out (Or.inl (by decide))

/-- C10: a GET for a single named subscription is decided solely by running
the authorization filter on the one-element list holding that name: 404 with
empty body when the filter drops it, a bare 200 when it keeps it; the cached
snapshot plays no part, so the response is identical whatever the snapshot
holds — an authorized identity gets 200 even for a name present in no
datacenter. -/
theorem subscription_get_decided_by_filter_alone (flt : Filters) (u : UchiwaState)
    (req : Request) (name : String)
    (hm : req.method = "GET") (hsplit : splitSlash req.path = ["", "subscriptions", name])
    (hn : name ≠ "") :
    (slen (flt.subscriptions [{ name := name }] req.token) = 0 →
      (subscriptionHandler flt u req).resp = { status := 404, body := "\n", gzipped := false }) ∧
    (0 < slen (flt.subscriptions [{ name := name }] req.token) →
      (subscriptionHandler flt u req).resp = { status := 200, body := "", gzipped := false }) ∧
    (∀ d1 d2 cfg,
      (subscriptionHandler flt { data := d1, config := cfg } req).resp =
        (subscriptionHandler flt { data := d2, config := cfg } req).resp) := by
  refine ⟨fun h0 => ?_, fun h0 => ?_, fun d1 d2 cfg => ?_⟩
  · simp [subscriptionHandler, joinSep, hm, hsplit, hn, h0, httpError]
  · have h0n : ¬ slen (flt.subscriptions [{ name := name }] req.token) = 0 :=
      Nat.pos_iff_ne_zero.mp h0
    simp [subscriptionHandler, joinSep, hm, hsplit, hn, h0n]
  · simp only [subscriptionHandler]
    repeat' split
    all_goals rfl

theorem subscription_get_decided_by_filter_alone_witness :
    uC10.data.subscriptions = [] ∧
    (subscriptionHandler specFilters uC10 reqC10).resp =
      { status := 200, body := "", gzipped := false } :=
  ⟨rfl, (subscription_get_decided_by_filter_alone specFilters uC10 reqC10 "web"
    rfl rfl (by decide)).2.1 (by decide)⟩
